import Mathlib

/-!
Verification development for gwg (src/main.go), a webhook-triggered git-mirror
synchronizer.  The Go functions relevant to the claims are shallowly embedded:

* cleanURL / FindRepo (main.go:72-87) are pure; the out-of-range byte access of
  cleanURL on the empty string is modelled by an Option result (none = panic).
* the per-repository busy-flag protocol (waitForCompletion at main.go:93-109,
  the Busy assignments at main.go:121/166 and finished at main.go:89-91) is an
  interleaving step relation of two concurrent invocations: observing the flag
  clear and setting it are distinct atomic steps, exactly as in the Go source
  where the read in the wait loop and the later write are separate statements.
* update (main.go:155-269) and clone (main.go:111-152) are pure functions over
  an oracle world that supplies the outcome of each external git/ssh call
  (auth, open, fetch attempts, reference lookups, tag-object lookup, reset,
  re-read of HEAD).  They return the observable result plus an effects record:
  how many fetch attempts ran, whether the target reference was resolved,
  which commit a hard reset was invoked with, whether touchTrigger was invoked
  and the final value of the Busy flag.  The Go `defer r.finished()` is the
  wrapper applied on top of the body, as in the source.
* the dispatcher (process at main.go:332-350, refreshTasks at main.go:468-476)
  is a step relation over the semaphore capacity fixed at spawn time, the
  DataPasser.threads field, and the number of goroutines holding a slot.
* the debounced configuration reload (the viper.OnConfigChange closure at
  main.go:551-595) is a state machine over the global mutex, C.LastUpdate and
  a reload counter, folded over a list of notification times (fsnotify fires
  the callbacks sequentially from one watch goroutine).
-/

namespace GWG

/-- Commit and object hashes are abstracted as natural numbers. -/
abbrev Hash := Nat

/-- The repo record of main.go:42-54: configuration fields plus the Busy flag. -/
structure Repo where
  url : String
  path : String
  directory : String
  label : String
  labelType : String
  remote : String
  secret : String
  trigger : String
  busy : Bool
deriving DecidableEq, Repr

/-- cleanURL (main.go:81-87).  The Go code reads url[len(url)-1] with no length
check, so on the empty string the index is out of range and the program
panics; the embedding returns none for that case.  Otherwise, if the last byte
is a slash it is stripped (for UTF-8 input the byte 0x2F can only occur as the
character '/', so the byte test and the character test agree), else the string
is returned unchanged. -/
def cleanURL (url : String) : Option String :=
  match url.data.getLast? with
  | none => none
  | some c => if c = '/' then some (String.mk url.data.dropLast) else some url

/-- Loop of config.FindRepo (main.go:72-79): walk the repo list with its index,
evaluating cleanURL on the request path inside each iteration, exactly as the
Go loop body does; the outer none propagates the panic of cleanURL on the
empty path (it occurs as soon as the loop body runs once).  some none is the
Go return of (0, false). -/
def findRepoAux : List Repo → Nat → String → Option (Option Nat)
  | [], _, _ => some none
  | r :: rest, idx, p =>
    match cleanURL p with
    | none => none
    | some cp => if r.path = cp then some (some idx) else findRepoAux rest (idx + 1) p

/-- config.FindRepo (main.go:72-79): some (some i) means found at index i,
some none means the (0, false) not-found return, none means the call panics
inside cleanURL. -/
def FindRepo (repos : List Repo) (p : String) : Option (Option Nat) :=
  findRepoAux repos 0 p

/-- Spec-side description of the routing lookup: the index of the first
repository whose Path equals the cleaned value (used to compare FindRepo
against the words of the spec). -/
def firstMatchIdx (cp : String) : List Repo → Option Nat
  | [] => none
  | r :: rest => if r.path = cp then some 0 else (firstMatchIdx cp rest).map (fun n => n + 1)

/-- Phases of one Clone/Update invocation around the busy flag:
waiting = inside the waitForCompletion poll loop (main.go:101-108),
acquired = the loop observed Busy = false and returned, the invocation has not
yet executed its own Busy = true assignment (main.go:121/166),
running = Busy was set and the git work is executing,
done = finished() cleared the flag (main.go:89-91). -/
inductive Phase
  | waiting
  | acquired
  | running
  | done
deriving DecidableEq, Repr

/-- Shared busy flag plus the phases of two concurrent invocations targeting
the same repository. -/
structure MuxState where
  busy : Bool
  a : Phase
  b : Phase
deriving DecidableEq, Repr

/-- Initially the repository is idle and both invocations are about to check
the flag. -/
def muxInit : MuxState := { busy := false, a := Phase.waiting, b := Phase.waiting }

/-- Interleaving semantics of two concurrent Clone/Update invocations on one
repository.  A check step is the read of r.Busy in the waitForCompletion loop
(main.go:101-108): it only fires when the flag is observed clear.  A set step
is the later write r.Busy = true (main.go:121/166).  A fin step is the
deferred finished() (main.go:89-91), clearing the flag.  The read and the
write are separate statements in the source, hence separate steps here. -/
inductive MuxStep : MuxState → MuxState → Prop
  | checkA (s : MuxState) (h : s.a = Phase.waiting) (hb : s.busy = false) :
      MuxStep s { s with a := Phase.acquired }
  | setA (s : MuxState) (h : s.a = Phase.acquired) :
      MuxStep s { s with a := Phase.running, busy := true }
  | finA (s : MuxState) (h : s.a = Phase.running) :
      MuxStep s { s with a := Phase.done, busy := false }
  | checkB (s : MuxState) (h : s.b = Phase.waiting) (hb : s.busy = false) :
      MuxStep s { s with b := Phase.acquired }
  | setB (s : MuxState) (h : s.b = Phase.acquired) :
      MuxStep s { s with b := Phase.running, busy := true }
  | finB (s : MuxState) (h : s.b = Phase.running) :
      MuxStep s { s with b := Phase.done, busy := false }

/-- Reachability for the busy-flag protocol. -/
inductive MuxReach : MuxState → Prop
  | init : MuxReach muxInit
  | step {s t : MuxState} : MuxReach s → MuxStep s t → MuxReach t

/-- Result of one repo.Fetch call (main.go:191-196): nil error, the
git.NoErrAlreadyUpToDate sentinel, or a genuine error. -/
inductive FetchResult
  | ok
  | alreadyUpToDate
  | failed
deriving DecidableEq, Repr

/-- How control leaves the retry loop at main.go:189-209.  early a: the
sentinel caused the `return` inside the loop after a attempts.  cont a: the
loop was left by `break` on a nil error, or by exhausting the retry count --
the Go code does not distinguish the two and falls through to line 210 in both
cases. -/
inductive LoopExit
  | early (attempts : Nat)
  | cont (attempts : Nat)
deriving DecidableEq, Repr

/-- The retry loop body (main.go:189-209), recursing on the remaining
iterations; i counts the attempts already made (the loop variable). -/
def fetchLoopAux (f : Nat → FetchResult) : Nat → Nat → LoopExit
  | i, 0 => LoopExit.cont i
  | i, rem + 1 =>
    match f i with
    | FetchResult.ok => LoopExit.cont (i + 1)
    | FetchResult.alreadyUpToDate => LoopExit.early (i + 1)
    | FetchResult.failed => fetchLoopAux f (i + 1) rem

/-- The retry loop of update (main.go:189-209) with retryCount = C.RetryCount. -/
def fetchLoop (f : Nat → FetchResult) (retryCount : Nat) : LoopExit :=
  fetchLoopAux f 0 retryCount

/-- Oracle for the external git/ssh calls made by update.  fetchResults i is
the outcome of the (i+1)-st repo.Fetch attempt; refHash resolves a reference
name (the resolved = true lookup of main.go:220); tagObject h is some target
when repo.TagObject(h) succeeds, i.e. h names an annotated tag object whose
Target is returned (main.go:229-233); headHash is the resolution of HEAD
before the reset (main.go:235); headAfterReset h is the re-read of HEAD after
a hard reset to commit h (main.go:253). -/
structure GitWorld where
  sshAuthOk : Bool
  openOk : Bool
  worktreeOk : Bool
  fetchResults : Nat → FetchResult
  refHash : String → Option Hash
  tagObject : Hash → Option Hash
  headHash : Option Hash
  resetOk : Bool
  headAfterReset : Hash → Option Hash

/-- The annotated-tag amendment of main.go:228-233: if repo.TagObject succeeds
on the reference hash, the target hash becomes the tag object's Target,
otherwise it stays the reference hash. -/
def derefTag (w : GitWorld) (h : Hash) : Hash :=
  match w.tagObject h with
  | some t => t
  | none => h

/-- The reference name computed by update (main.go:212-217): refs/tags/<label>
for a tag label, refs/remotes/<remote>/<label> otherwise. -/
def targetRefName (r : Repo) : String :=
  if r.labelType = "tag" then "refs/tags/" ++ r.label
  else "refs/remotes/" ++ r.remote ++ "/" ++ r.label

/-- Observable effects of one update run: number of repo.Fetch calls made,
whether repo.Reference(ref, true) was invoked (main.go:220), the commit a hard
reset was invoked with if any (main.go:247), whether touchTrigger was invoked
(main.go:268), and the repo Busy flag after the run. -/
structure UpdateEffects where
  fetchAttempts : Nat
  refResolved : Bool
  resetCommit : Option Hash
  triggerTouched : Bool
  busy : Bool
deriving DecidableEq, Repr

/-- Which return statement of update (main.go:155-269) ended the run. -/
inductive UpdateOutcome
  | authFailed
  | openFailed
  | worktreeFailed
  | fetchUpToDate
  | refFailed
  | headFailed
  | noChange
  | resetFailed
  | verifyFailed
  | verifyMismatch
  | success
deriving DecidableEq, Repr

/-- The body of update (main.go:155-269) after waitForCompletion and the
Busy = true assignment, hence busy = true on every path; the deferred
finished() is applied by `update` below.  Control flow follows the source
line by line; in particular the retry loop result cont is not inspected for a
leftover error (the Go code falls through to line 210 unconditionally), and
the no-op comparison at main.go:241 uses the reference hash remoteRef.Hash(),
not the dereferenced targetHash. -/
def updateBody (r : Repo) (w : GitWorld) (retryCount : Nat) :
    UpdateOutcome × UpdateEffects :=
  if w.sshAuthOk = true then
    if w.openOk = true then
      if w.worktreeOk = true then
        match fetchLoop w.fetchResults retryCount with
        | LoopExit.early a => (UpdateOutcome.fetchUpToDate, ⟨a, false, none, false, true⟩)
        | LoopExit.cont a =>
          match w.refHash (targetRefName r) with
          | none => (UpdateOutcome.refFailed, ⟨a, true, none, false, true⟩)
          | some rh =>
            let targetHash := derefTag w rh
            match w.headHash with
            | none => (UpdateOutcome.headFailed, ⟨a, true, none, false, true⟩)
            | some lh =>
              if rh = lh then (UpdateOutcome.noChange, ⟨a, true, none, false, true⟩)
              else if w.resetOk = true then
                match w.headAfterReset targetHash with
                | none => (UpdateOutcome.verifyFailed, ⟨a, true, some targetHash, false, true⟩)
                | some hh =>
                  if hh = targetHash then
                    (UpdateOutcome.success, ⟨a, true, some targetHash, true, true⟩)
                  else
                    (UpdateOutcome.verifyMismatch, ⟨a, true, some targetHash, false, true⟩)
              else (UpdateOutcome.resetFailed, ⟨a, true, some targetHash, false, true⟩)
      else (UpdateOutcome.worktreeFailed, ⟨0, false, none, false, true⟩)
    else (UpdateOutcome.openFailed, ⟨0, false, none, false, true⟩)
  else (UpdateOutcome.authFailed, ⟨0, false, none, false, true⟩)

/-- finished (main.go:89-91): r.Busy = false, acting on the effects record that
carries the flag. -/
def finished (e : UpdateEffects) : UpdateEffects := { e with busy := false }

/-- update (main.go:155-269): the body wrapped in the deferred finished(),
which runs on every exit path. -/
def update (r : Repo) (w : GitWorld) (retryCount : Nat) :
    UpdateOutcome × UpdateEffects :=
  let res := updateBody r w retryCount
  (res.1, finished res.2)

/-- Oracle for the external calls made by clone (main.go:111-152). -/
structure CloneWorld where
  sshAuthOk : Bool
  cloneOk : Bool

/-- Which return statement of clone ended the run. -/
inductive CloneOutcome
  | authFailed
  | cloneFailed
  | success
deriving DecidableEq, Repr

/-- Observable effects of one clone run: the reference name git.PlainClone was
invoked with if any, whether touchTrigger was invoked, and the Busy flag after
the run. -/
structure CloneEffects where
  cloneRef : Option String
  triggerTouched : Bool
  busy : Bool
deriving DecidableEq, Repr

/-- The reference name computed by clone (main.go:128-133): refs/tags/<label>
for a tag label, refs/heads/<label> otherwise. -/
def cloneRefName (r : Repo) : String :=
  if r.labelType = "tag" then "refs/tags/" ++ r.label
  else "refs/heads/" ++ r.label

/-- The body of clone (main.go:111-152) after waitForCompletion and
Busy = true, so busy = true on every path; finished() is applied by `clone`. -/
def cloneBody (r : Repo) (w : CloneWorld) : CloneOutcome × CloneEffects :=
  if w.sshAuthOk = true then
    if w.cloneOk = true then
      (CloneOutcome.success, ⟨some (cloneRefName r), true, true⟩)
    else (CloneOutcome.cloneFailed, ⟨some (cloneRefName r), false, true⟩)
  else (CloneOutcome.authFailed, ⟨none, false, true⟩)

/-- finished (main.go:89-91) acting on clone effects. -/
def cloneFinished (e : CloneEffects) : CloneEffects := { e with busy := false }

/-- clone (main.go:111-152): the body wrapped in the deferred finished(). -/
def clone (r : Repo) (w : CloneWorld) : CloneOutcome × CloneEffects :=
  let res := cloneBody r w
  (res.1, cloneFinished res.2)

/-- Dispatcher state: capacity is the buffer size of the semaphore channel
created once by process (main.go:333, make(chan struct, threads)),
passerThreads is the DataPasser.threads field that refreshTasks overwrites
(main.go:474), running is the number of goroutines currently holding a
semaphore slot (between main.go:338 and main.go:345). -/
structure DispState where
  capacity : Nat
  passerThreads : Nat
  running : Nat
deriving DecidableEq, Repr

/-- go process(passer.jobs, passer.threads) at main.go:597: the semaphore is
created with the threads value passed at spawn time. -/
def spawnProcess (threads : Nat) : DispState :=
  { capacity := threads, passerThreads := threads, running := 0 }

/-- Dispatcher transitions: a job goroutine acquires a semaphore slot
(main.go:338, blocking unless running < capacity), releases it after the job
(main.go:345), and refreshTasks (main.go:474) overwrites DataPasser.threads
with the new configuration value -- the running process loop and its channel
capacity are untouched (the source marks this with // TODO: respawn process()). -/
inductive DispStep : DispState → DispState → Prop
  | acquire (s : DispState) (h : s.running < s.capacity) :
      DispStep s { s with running := s.running + 1 }
  | release (s : DispState) (h : 0 < s.running) :
      DispStep s { s with running := s.running - 1 }
  | refreshTasks (s : DispState) (t : Nat) :
      DispStep s { s with passerThreads := t }

/-- Reachability of dispatcher states from a spawn with n threads. -/
inductive DispReach (n : Nat) : DispState → Prop
  | init : DispReach n (spawnProcess n)
  | step {s t : DispState} : DispReach n s → DispStep s t → DispReach n t

/-- The debounce constant of main.go:553 (nanoseconds). -/
def debounceWindowNs : Nat := 250229410

/-- State of the configuration-reload machinery: the global mutex
(main.go:69), C.LastUpdate (set by refreshTasks, main.go:475) and a counter of
completed reloads (executions of C = newC at main.go:588). -/
structure ReloadState where
  lockHeld : Bool
  lastUpdate : Nat
  reloads : Nat
deriving DecidableEq, Repr

/-- What happened to one file-change notification. -/
inductive NotifyOutcome
  | blocked
  | debounced
  | reloaded
deriving DecidableEq, Repr

/-- One execution of the viper.OnConfigChange callback (main.go:551-595) at
time t (nanoseconds).  If the mutex is already held the callback blocks in
mutex.Lock() and never proceeds (blocked).  After Lock(), if less than the
debounce window has elapsed since C.LastUpdate the callback returns early at
main.go:554 -- WITHOUT executing the mutex.Unlock() at main.go:593, so the
lock stays held (debounced).  Otherwise it rebuilds the configuration, waits
for quiescence, installs it, records the new LastUpdate and unlocks
(reloaded); the quiescence wait is assumed to terminate. -/
def onConfigChange (s : ReloadState) (t : Nat) : ReloadState × NotifyOutcome :=
  if s.lockHeld then (s, NotifyOutcome.blocked)
  else if t - s.lastUpdate < debounceWindowNs then
    ({ s with lockHeld := true }, NotifyOutcome.debounced)
  else
    ({ s with lastUpdate := t, reloads := s.reloads + 1 }, NotifyOutcome.reloaded)

/-- Fold the callback over a list of notification times; fsnotify delivers the
events sequentially from a single watch goroutine, so the callbacks run one
after the other (and a blocked callback blocks the goroutine, leaving the
state unchanged for the rest). -/
def runNotifications (s : ReloadState) : List Nat → ReloadState × List NotifyOutcome
  | [] => (s, [])
  | t :: ts =>
    let res := onConfigChange s t
    let rest := runNotifications res.1 ts
    (rest.1, res.2 :: rest.2)

/-- A branch-tracking repository used as concrete input. -/
def branchRepo : Repo :=
  { url := "git@github.com:o/r.git", path := "/r", directory := "/srv/r"
  , label := "master", labelType := "branch", remote := "origin"
  , secret := "s", trigger := "/srv/trig", busy := false }

/-- A tag-tracking repository used as concrete input. -/
def tagRepo : Repo :=
  { branchRepo with label := "v1", labelType := "tag" }

/-- World in which every fetch attempt fails with a genuine error while the
local references still resolve: refs/remotes/origin/master = 5 and HEAD = 3. -/
def allFailWorld : GitWorld :=
  { sshAuthOk := true, openOk := true, worktreeOk := true
  , fetchResults := fun _ => FetchResult.failed
  , refHash := fun s => if s = "refs/remotes/origin/master" then some 5 else none
  , tagObject := fun _ => none
  , headHash := some 3
  , resetOk := true
  , headAfterReset := fun h => some h }

/-- World for the annotated-tag scenario: refs/tags/v1 names the annotated tag
object 10 whose Target is commit 20, and HEAD is already at commit 20. -/
def annotatedTagWorld : GitWorld :=
  { sshAuthOk := true, openOk := true, worktreeOk := true
  , fetchResults := fun _ => FetchResult.ok
  , refHash := fun s => if s = "refs/tags/v1" then some 10 else none
  , tagObject := fun h => if h = 10 then some 20 else none
  , headHash := some 20
  , resetOk := true
  , headAfterReset := fun h => some h }

/-- World whose second fetch attempt reports the already-up-to-date sentinel. -/
def sentinelWorld : GitWorld :=
  { allFailWorld with
    fetchResults := fun j => if j = 0 then FetchResult.failed else FetchResult.alreadyUpToDate }

/-- World in which the fetch succeeds and HEAD already equals the branch
reference hash. -/
def equalHeadWorld : GitWorld :=
  { allFailWorld with fetchResults := fun _ => FetchResult.ok, headHash := some 5 }

/-- World for the annotated-tag reset scenario with HEAD = 3 differing from
both the tag object hash 10 and its target 20. -/
def tagResetWorld : GitWorld :=
  { annotatedTagWorld with headHash := some 3 }

/-- World in which the post-reset re-read of HEAD yields 4 instead of the
reset target 5. -/
def mismatchWorld : GitWorld :=
  { allFailWorld with
    fetchResults := fun _ => FetchResult.ok
  , headAfterReset := fun _ => some 4 }

/-- C1 counterexample: both invocations can be inside their git work at the
same time.  From the initial state both invocations pass the busy check
(waitForCompletion observes Busy = false for each of them) before either
executes its Busy = true assignment; then both set the flag and run.  The
state with both phases running is reachable, so two Clone/Update executions
on the same repository CAN overlap in time, refuting the claim that one
always waits until the other has cleared the flag. -/
theorem overlap_reachable :
    MuxReach { busy := true, a := Phase.running, b := Phase.running } := by
  have h1 : MuxReach { busy := false, a := Phase.acquired, b := Phase.waiting } :=
    MuxReach.step MuxReach.init (MuxStep.checkA muxInit rfl rfl)
  have h2 : MuxReach { busy := false, a := Phase.acquired, b := Phase.acquired } :=
    MuxReach.step h1
      (MuxStep.checkB { busy := false, a := Phase.acquired, b := Phase.waiting } rfl rfl)
  have h3 : MuxReach { busy := true, a := Phase.running, b := Phase.acquired } :=
    MuxReach.step h2
      (MuxStep.setA { busy := false, a := Phase.acquired, b := Phase.acquired } rfl)
  exact MuxReach.step h3
    (MuxStep.setB { busy := true, a := Phase.running, b := Phase.acquired } rfl)

/-- C1 (amended): an invocation only passes its busy check while the flag is
clear -- a waiter that observes the flag set keeps waiting and performs no git
work until the flag is cleared.  The observe and set steps are separate, so
this does not give mutual exclusion (see the counterexample); it is the
guarantee the check-then-set protocol of waitForCompletion actually provides. -/
theorem check_requires_not_busy (s t : MuxState) (hst : MuxStep s t)
    (hor : (s.a = Phase.waiting ∧ t.a = Phase.acquired) ∨
           (s.b = Phase.waiting ∧ t.b = Phase.acquired)) :
    s.busy = false := by
  cases hst with
  | checkA ha hb => exact hb
  | checkB ha hb => exact hb
  | setA ha =>
      rcases hor with ⟨h1, h2⟩ | ⟨h1, h2⟩
      · simp at h2
      · simp [h1] at h2
  | finA ha =>
      rcases hor with ⟨h1, h2⟩ | ⟨h1, h2⟩
      · simp at h2
      · simp [h1] at h2
  | setB ha =>
      rcases hor with ⟨h1, h2⟩ | ⟨h1, h2⟩
      · simp [h1] at h2
      · simp at h2
  | finB ha =>
      rcases hor with ⟨h1, h2⟩ | ⟨h1, h2⟩
      · simp [h1] at h2
      · simp at h2

/-- C1 witness: the amended theorem applied to the concrete check step taken
from the initial state. -/
theorem check_requires_not_busy_witness : muxInit.busy = false :=
  check_requires_not_busy muxInit
    { busy := false, a := Phase.acquired, b := Phase.waiting }
    (MuxStep.checkA muxInit rfl rfl) (Or.inl ⟨rfl, rfl⟩)

/-- C2: with retry_count = 2 and both fetch attempts failing with a genuine
error, update does NOT abort: the retry loop is exhausted, the leftover error
is never checked after the loop (main.go:210), and the run goes on to resolve
refs/remotes/origin/master, hard-reset the worktree to its hash 5 and touch
the trigger.  This contradicts the claim (and the code's own log line
"Fetched new updates" and its comment "we'll fetch up to the retry amount
until it succeeds"): the claim is right about the intent, the code lacks the
error check after the loop. -/
theorem update_ignores_exhausted_retries :
    update branchRepo allFailWorld 2 =
      (UpdateOutcome.success, ⟨2, true, some 5, true, false⟩) := by decide

/-- C4 counterexample: HEAD (commit 20) already equals the annotated tag's
target commit (tag object 10, Target 20), yet update hard-resets to 20 and
touches the trigger, because the no-op comparison at main.go:241 uses the tag
reference's own hash (10), not the dereferenced target hash. -/
theorem annotated_tag_equal_head_still_resets :
    update tagRepo annotatedTagWorld 1 =
      (UpdateOutcome.success, ⟨1, true, some 20, true, false⟩) := by decide

/-- C5: evaluation of the reload state machine on three notifications after a
startup reload at t = 0: the first (t = 0.3s) reloads, the second (t = 0.4s,
within the 250229410ns window of the first) is debounced -- but its early
return at main.go:554 skips mutex.Unlock(), so the third (t = 0.9s, well
outside the window) blocks forever in mutex.Lock() and no further reload ever
happens.  Two notifications within the window do produce exactly one reload,
but the claim that every later notification outside the window reloads again
is broken by the leaked lock. -/
theorem debounce_leaks_lock_run :
    runNotifications { lockHeld := false, lastUpdate := 0, reloads := 0 }
        [300000000, 400000000, 900000000] =
      ({ lockHeld := true, lastUpdate := 300000000, reloads := 1 },
       [NotifyOutcome.reloaded, NotifyOutcome.debounced, NotifyOutcome.blocked]) := by
  decide

/-- C3 counterexample: spawn the dispatcher with threads = 2, then a reload
installs threads = 1 (refreshTasks overwrites DataPasser.threads), yet two
jobs dispatched afterwards both acquire semaphore slots: the state with
running = 2 and passerThreads = 1 is reachable, so the number of concurrent
jobs exceeds the active snapshot's limit and the effective permit count is
still the spawn-time 2, not the new 1. -/
theorem limit_exceeded_after_reload_reachable :
    DispReach 2 { capacity := 2, passerThreads := 1, running := 2 } := by
  have h1 : DispReach 2 { capacity := 2, passerThreads := 1, running := 0 } :=
    DispReach.step DispReach.init (DispStep.refreshTasks (spawnProcess 2) 1)
  have h2 : DispReach 2 { capacity := 2, passerThreads := 1, running := 1 } :=
    DispReach.step h1
      (DispStep.acquire { capacity := 2, passerThreads := 1, running := 0 } (by decide))
  exact DispReach.step h2
    (DispStep.acquire { capacity := 2, passerThreads := 1, running := 1 } (by decide))

/-- C3 (amended): the number of concurrently running jobs is bounded by the
threads value captured when the dispatch loop was spawned, and the semaphore
capacity never changes afterwards -- in particular a refreshTasks step leaves
it untouched, so after a reload the effective permit count remains the
spawn-time limit rather than the new threads value. -/
theorem dispatch_bounded_by_spawn_capacity (n : Nat) (s : DispState)
    (h : DispReach n s) : s.capacity = n ∧ s.running ≤ n := by
  induction h with
  | init => exact ⟨rfl, Nat.zero_le n⟩
  | @step s t hr hstep ih =>
      obtain ⟨ih1, ih2⟩ := ih
      cases hstep with
      | acquire hlt =>
          refine ⟨ih1, ?_⟩
          show s.running + 1 ≤ n
          omega
      | release hpos =>
          refine ⟨ih1, ?_⟩
          show s.running - 1 ≤ n
          omega
      | refreshTasks tn => exact ⟨ih1, ih2⟩

/-- C3 witness: the amended bound applied to a state reached by spawning with
3 threads, reloading to 1, and acquiring twice. -/
theorem dispatch_bounded_by_spawn_capacity_witness :
    ({ capacity := 3, passerThreads := 1, running := 2 } : DispState).capacity = 3 ∧
    ({ capacity := 3, passerThreads := 1, running := 2 } : DispState).running ≤ 3 :=
  dispatch_bounded_by_spawn_capacity 3
    { capacity := 3, passerThreads := 1, running := 2 }
    (DispReach.step
      (DispReach.step
        (DispReach.step DispReach.init (DispStep.refreshTasks (spawnProcess 3) 1))
        (DispStep.acquire { capacity := 3, passerThreads := 1, running := 0 } (by decide)))
      (DispStep.acquire { capacity := 3, passerThreads := 1, running := 1 } (by decide)))

/-- C9: every update and clone run ends with the repository's Busy flag clear,
whatever the oracle world makes the external calls do -- the deferred
finished() wraps the body on every exit path (auth failure, open or worktree
failure, fetch failure, the already-up-to-date return, reference-resolution
failure, reset failure, verification mismatch, and full success). -/
theorem busy_cleared_on_every_exit :
    ∀ (r : Repo) (w : GitWorld) (n : Nat) (rc : Repo) (wc : CloneWorld),
      ((update r w n).2).busy = false ∧ ((clone rc wc).2).busy = false := by
  intro r w n rc wc
  exact ⟨rfl, rfl⟩

/-- C10 counterexample: with no repositories configured, FindRepo on the empty
request path never executes the loop body, hence never calls cleanURL, and
returns the Go (0, false) -- it is defined there, not a panic.  The claim
that FindRepo (and hence the webhook handler) is undefined on every empty
request path therefore fails for an empty repository list. -/
theorem findrepo_defined_on_empty_path_no_repos :
    FindRepo ([] : List Repo) "" = some none := rfl

/-- Helper: if the first k attempts fail with genuine errors and attempt k
returns the already-up-to-date sentinel, the retry loop returns inside the
loop after k + 1 attempts. -/
theorem fetchLoopAux_sentinel (f : Nat → FetchResult) :
    ∀ (k i rem : Nat), k < rem →
      (∀ j, j < k → f (i + j) = FetchResult.failed) →
      f (i + k) = FetchResult.alreadyUpToDate →
      fetchLoopAux f i rem = LoopExit.early (i + k + 1) := by
  intro k
  induction k with
  | zero =>
      intro i rem hk hfail hs
      cases rem with
      | zero => omega
      | succ rem =>
          have hi : f i = FetchResult.alreadyUpToDate := by simpa using hs
          simp [fetchLoopAux, hi]
  | succ k ih =>
      intro i rem hk hfail hs
      cases rem with
      | zero => omega
      | succ rem =>
          have h0 : f i = FetchResult.failed := by
            have h1 := hfail 0 (Nat.succ_pos k)
            simpa using h1
          have htail : fetchLoopAux f (i + 1) rem = LoopExit.early ((i + 1) + k + 1) := by
            apply ih (i + 1) rem (Nat.lt_of_succ_lt_succ hk)
            · intro j hj
              have h1 := hfail (j + 1) (Nat.succ_lt_succ hj)
              have heq : i + (j + 1) = (i + 1) + j := by omega
              rw [heq] at h1
              exact h1
            · have heq : i + (k + 1) = (i + 1) + k := by omega
              rw [heq] at hs
              exact hs
          rw [show fetchLoopAux f i (rem + 1) = fetchLoopAux f (i + 1) rem by
            simp [fetchLoopAux, h0]]
          rw [htail]
          congr 1
          omega

/-- C6: if the first k fetch attempts of an update fail with genuine errors,
attempt k (still within retry_count = n) returns the already-up-to-date
sentinel, and the run got as far as the fetch loop, then update returns
immediately: exactly k + 1 attempts were made (no further retries), no
reference is resolved, no reset is invoked, touchTrigger is not invoked, and
the busy flag is cleared. -/
theorem fetch_up_to_date_ends_update (r : Repo) (w : GitWorld) (n k : Nat)
    (hk : k < n)
    (hfail : ∀ j, j < k → w.fetchResults j = FetchResult.failed)
    (hs : w.fetchResults k = FetchResult.alreadyUpToDate)
    (hA : w.sshAuthOk = true) (hO : w.openOk = true) (hW : w.worktreeOk = true) :
    update r w n = (UpdateOutcome.fetchUpToDate, ⟨k + 1, false, none, false, false⟩) := by
  have hl : fetchLoop w.fetchResults n = LoopExit.early (k + 1) := by
    have h := fetchLoopAux_sentinel w.fetchResults k 0 n hk
      (by intro j hj; simpa using hfail j hj)
      (by simpa using hs)
    simpa [fetchLoop] using h
  simp [update, updateBody, finished, hA, hO, hW, hl]

/-- C6 witness: in sentinelWorld the first attempt fails and the second
reports the sentinel, so with retry_count = 3 the update ends after 2
attempts with no reference resolution, no reset and no trigger touch. -/
theorem fetch_up_to_date_ends_update_witness :
    update branchRepo sentinelWorld 3 =
      (UpdateOutcome.fetchUpToDate, ⟨2, false, none, false, false⟩) :=
  fetch_up_to_date_ends_update branchRepo sentinelWorld 3 1 (by decide)
    (by intro j hj
        have hj0 : j = 0 := by omega
        rw [hj0]
        rfl)
    (by decide) (by decide) (by decide) (by decide)

/-- C4 (amended): the no-op comparison of update (main.go:241) is between the
hash of the reference as read -- for an annotated tag the tag object's own
hash, not the dereferenced target -- and local HEAD: when those two are equal
the run returns with a warning, no reset and no trigger touch.  When HEAD
equals an annotated tag's target commit but not the tag reference's hash, the
comparison fails and update performs a (redundant) hard reset (see the
counterexample). -/
theorem refhash_equal_head_is_noop (r : Repo) (w : GitWorld) (n a : Nat) (rh : Hash)
    (hA : w.sshAuthOk = true) (hO : w.openOk = true) (hW : w.worktreeOk = true)
    (hloop : fetchLoop w.fetchResults n = LoopExit.cont a)
    (href : w.refHash (targetRefName r) = some rh)
    (hhead : w.headHash = some rh) :
    update r w n = (UpdateOutcome.noChange, ⟨a, true, none, false, false⟩) := by
  simp [update, updateBody, finished, hA, hO, hW, hloop, href, hhead]

/-- C4 witness: the amended no-op theorem applied to a world where the fetch
succeeds and HEAD already equals the branch reference hash 5. -/
theorem refhash_equal_head_is_noop_witness :
    update branchRepo equalHeadWorld 1 =
      (UpdateOutcome.noChange, ⟨1, true, none, false, false⟩) :=
  refhash_equal_head_is_noop branchRepo equalHeadWorld 1 1 5
    (by decide) (by decide) (by decide) (by decide) (by decide) (by decide)

/-- C7: for a tag label whose reference resolves to an annotated tag object
(tagObject rh = some t), once the run reaches the reset (reference hash
differs from HEAD), the commit passed to the hard reset is the tag object's
Target t -- not the tag object's own hash rh -- and the post-reset
verification compares the re-read HEAD against t: the run succeeds exactly
when that re-read equals t, and mismatches are reported otherwise. -/
theorem annotated_tag_reset_uses_target (r : Repo) (w : GitWorld) (n a : Nat)
    (rh t lh hh : Hash)
    (hA : w.sshAuthOk = true) (hO : w.openOk = true) (hW : w.worktreeOk = true)
    (hloop : fetchLoop w.fetchResults n = LoopExit.cont a)
    (htag : r.labelType = "tag")
    (href : w.refHash (targetRefName r) = some rh)
    (hatag : w.tagObject rh = some t)
    (hhead : w.headHash = some lh)
    (hne : rh ≠ lh)
    (hreset : w.resetOk = true)
    (hafter : w.headAfterReset t = some hh)
    (hdist : t ≠ rh) :
    (update r w n).2.resetCommit = some t ∧
    (update r w n).2.resetCommit ≠ some rh ∧
    ((update r w n).1 = UpdateOutcome.success ↔ hh = t) := by
  have hderef : derefTag w rh = t := by simp [derefTag, hatag]
  by_cases hht : hh = t
  · have hu : update r w n = (UpdateOutcome.success, ⟨a, true, some t, true, false⟩) := by
      simp [update, updateBody, finished, hA, hO, hW, hloop, href, hderef, hhead,
        hne, hreset, hafter, hht]
    rw [hu]
    exact ⟨rfl, by simp [hdist], by simp [hht]⟩
  · have hu : update r w n =
        (UpdateOutcome.verifyMismatch, ⟨a, true, some t, false, false⟩) := by
      simp [update, updateBody, finished, hA, hO, hW, hloop, href, hderef, hhead,
        hne, hreset, hafter, hht]
    rw [hu]
    exact ⟨rfl, by simp [hdist], by simp [hht]⟩

/-- C7 witness: in tagResetWorld (annotated tag object 10 with Target 20,
HEAD = 3) the reset commit is the target 20, not the tag object hash 10, and
the run succeeds since the re-read HEAD equals 20. -/
theorem annotated_tag_reset_uses_target_witness :
    (update tagRepo tagResetWorld 1).2.resetCommit = some 20 ∧
    (update tagRepo tagResetWorld 1).2.resetCommit ≠ some 10 ∧
    ((update tagRepo tagResetWorld 1).1 = UpdateOutcome.success ↔ 20 = 20) :=
  annotated_tag_reset_uses_target tagRepo tagResetWorld 1 1 10 20 3 20
    (by decide) (by decide) (by decide) (by decide) (by decide) (by decide)
    (by decide) (by decide) (by decide) (by decide) (by decide) (by decide)

/-- C8: when the re-read of HEAD after the hard reset differs from the target
hash, update ends as verifyMismatch: the error branch of main.go:261-266 is
taken, touchTrigger is not invoked, no further fetch or reset is attempted
(the effects record exactly one reset and the a attempts of the single retry
loop), and the busy flag is cleared. -/
theorem post_reset_mismatch_fails_without_trigger (r : Repo) (w : GitWorld)
    (n a : Nat) (rh lh hh : Hash)
    (hA : w.sshAuthOk = true) (hO : w.openOk = true) (hW : w.worktreeOk = true)
    (hloop : fetchLoop w.fetchResults n = LoopExit.cont a)
    (href : w.refHash (targetRefName r) = some rh)
    (hhead : w.headHash = some lh)
    (hne : rh ≠ lh)
    (hreset : w.resetOk = true)
    (hafter : w.headAfterReset (derefTag w rh) = some hh)
    (hmm : hh ≠ derefTag w rh) :
    update r w n =
      (UpdateOutcome.verifyMismatch, ⟨a, true, some (derefTag w rh), false, false⟩) := by
  simp [update, updateBody, finished, hA, hO, hW, hloop, href, hhead, hne,
    hreset, hafter, hmm]

/-- C8 witness: in mismatchWorld the reset targets hash 5 but HEAD re-reads as
4, so the run ends as verifyMismatch with the trigger untouched. -/
theorem post_reset_mismatch_fails_without_trigger_witness :
    update branchRepo mismatchWorld 1 =
      (UpdateOutcome.verifyMismatch,
        ⟨1, true, some (derefTag mismatchWorld 5), false, false⟩) :=
  post_reset_mismatch_fails_without_trigger branchRepo mismatchWorld 1 1 5 3 4
    (by decide) (by decide) (by decide) (by decide) (by decide) (by decide)
    (by decide) (by decide) (by decide) (by decide)

/-- Helper: the FindRepo loop returns the index of the first repository whose
Path equals the cleaned request path, offset by the start index. -/
theorem findRepoAux_firstMatch (cp : String) :
    ∀ (repos : List Repo) (i : Nat) (p : String), cleanURL p = some cp →
      findRepoAux repos i p =
        some ((firstMatchIdx cp repos).map (fun m => m + i)) := by
  intro repos
  induction repos with
  | nil => intro i p hp; simp [findRepoAux, firstMatchIdx]
  | cons r rest ih =>
      intro i p hp
      by_cases hr : r.path = cp
      · simp [findRepoAux, firstMatchIdx, hp, hr]
      · rw [show findRepoAux (r :: rest) i p = findRepoAux rest (i + 1) p by
          simp [findRepoAux, hp, hr]]
        rw [ih (i + 1) p hp]
        cases hfm : firstMatchIdx cp rest with
        | none => simp [firstMatchIdx, hr, hfm]
        | some m =>
            simp [firstMatchIdx, hr, hfm]
            omega

/-- C10 (amended): cleanURL is total exactly on the non-empty strings -- on
the empty string the Go byte access url[len(url)-1] is out of range (modelled
none), and on every non-empty string it strips one trailing slash if present
and returns the string unchanged otherwise; whenever cleanURL succeeds,
FindRepo returns the index of the first repository whose Path equals the
cleaned value; and on the empty request path FindRepo panics -- so the
webhook handler is undefined there -- whenever at least one repository is
configured (with an empty repository list the loop body never runs and the
panic does not occur; see the counterexample). -/
theorem cleanurl_findrepo_characterization :
    (cleanURL "" = none) ∧
    (∀ s : String, s.data ≠ [] →
      cleanURL s =
        some (if s.data.getLast? = some '/' then String.mk s.data.dropLast else s)) ∧
    (∀ (repos : List Repo) (p cp : String), cleanURL p = some cp →
      FindRepo repos p = some (firstMatchIdx cp repos)) ∧
    (∀ (r0 : Repo) (rest : List Repo), FindRepo (r0 :: rest) "" = none) := by
  refine ⟨rfl, ?_, ?_, ?_⟩
  · intro s hs
    cases hlast : s.data.getLast? with
    | none => exact absurd (List.getLast?_eq_none_iff.mp hlast) hs
    | some c =>
        by_cases hc : c = '/'
        · simp [cleanURL, hlast, hc]
        · simp [cleanURL, hlast, hc]
  · intro repos p cp hp
    have h := findRepoAux_firstMatch cp repos 0 p hp
    rw [FindRepo, h]
    cases firstMatchIdx cp repos <;> simp
  · intro r0 rest
    rfl

/-- C10 witness: the amended characterization applied to concrete inputs --
cleanURL strips the trailing slash of "/r/" and FindRepo routes it to the
first (index 0) matching repository. -/
theorem cleanurl_findrepo_characterization_witness :
    cleanURL "/r/" = some "/r" ∧ FindRepo [branchRepo] "/r/" = some (some 0) := by
  constructor
  · have h := cleanurl_findrepo_characterization.2.1 "/r/" (by decide)
    rw [h]
    decide
  · have h := cleanurl_findrepo_characterization.2.2.1 [branchRepo] "/r/" "/r" (by decide)
    rw [h]
    decide

end GWG
